import Mathlib

/-!
# Verification of the SA2 growth-zone pipeline (`src/aggregate_data.py`)

Shallow embedding of the script `aggregate_data.py`, which

1. loads an SA2 polygon-boundary table and a census attribute table,
2. normalizes the join keys (string coercion + whitespace strip) and coerces
   the `Total_Total` column to numeric, dropping rows where coercion fails,
3. inner-joins the two tables on the SA2 code,
4. computes `housing_density = Total_Total / AREASQKM21`,
5. labels as `developed` (high-density) the regions whose density is `>=`
   the 0.70 quantile of the density column,
6. reprojects to EPSG:3857, buffers the high-density regions by 10 000,
   takes the unary union of the buffers, and keeps the regions whose
   geometry intersects the union,
7. removes regions whose SA2 code is already in `developed`, and keeps only
   those with density in the closed band [10, 200] (`hot_zones_m`),
8. reprojects everything to EPSG:4326 for the interactive-map export,
   dropping rows with missing geometry.

Numeric columns are embedded as an idealized IEEE-754 value type `Flt`
(a rational, or NaN, or one of the two infinities): pandas float columns
follow IEEE semantics for division by zero and for comparisons with NaN,
which is exactly what the claims about zero-area and undefined densities
turn on.  Geometry and the geometric primitives used by the script
(`to_crs`, `buffer`, `unary_union`, `intersects`, null-geometry test) are
library calls into GeoPandas/Shapely, not code of this repository, so they
are abstracted as a parameter record `GeoOps`; every theorem below holds
for an arbitrary instantiation of these primitives.
-/

/-- Idealized IEEE-754 double: a rational number, NaN, or ±infinity.
Rationals stand for the exact values; the claims under verification are
stated "up to floating-point tolerance", which this idealization realizes
exactly. -/
inductive Flt where
  | nan : Flt
  | inf : Flt
  | ninf : Flt
  | fin (q : ℚ) : Flt
deriving DecidableEq, Repr

namespace Flt

/-- NaN test (pandas `isna` on a float column). -/
def isNan : Flt → Bool
  | nan => true
  | _ => false

/-- IEEE addition (signed zeros are irrelevant at this granularity). -/
def add : Flt → Flt → Flt
  | nan, _ => nan
  | _, nan => nan
  | inf, ninf => nan
  | ninf, inf => nan
  | inf, _ => inf
  | _, inf => inf
  | ninf, _ => ninf
  | _, ninf => ninf
  | fin a, fin b => fin (a + b)

/-- IEEE negation. -/
def neg : Flt → Flt
  | nan => nan
  | inf => ninf
  | ninf => inf
  | fin a => fin (-a)

/-- IEEE subtraction. -/
def sub (a b : Flt) : Flt := add a (neg b)

/-- IEEE multiplication (`inf * 0 = nan`). -/
def mul : Flt → Flt → Flt
  | nan, _ => nan
  | _, nan => nan
  | inf, inf => inf
  | inf, ninf => ninf
  | ninf, inf => ninf
  | ninf, ninf => inf
  | inf, fin b => if b = 0 then nan else if 0 < b then inf else ninf
  | fin a, inf => if a = 0 then nan else if 0 < a then inf else ninf
  | ninf, fin b => if b = 0 then nan else if 0 < b then ninf else inf
  | fin a, ninf => if a = 0 then nan else if 0 < a then ninf else inf
  | fin a, fin b => fin (a * b)

/-- IEEE division: `positive / 0 = +inf`, `negative / 0 = -inf`,
`0 / 0 = nan`, `inf / inf = nan`, `finite / inf = 0`.  This is what the
pandas column division `Total_Total / AREASQKM21` does on a zero or
missing (NaN) area. -/
def div : Flt → Flt → Flt
  | nan, _ => nan
  | _, nan => nan
  | inf, inf => nan
  | inf, ninf => nan
  | ninf, inf => nan
  | ninf, ninf => nan
  | inf, fin b => if 0 ≤ b then inf else ninf
  | ninf, fin b => if 0 ≤ b then ninf else inf
  | fin _, inf => fin 0
  | fin _, ninf => fin 0
  | fin a, fin b =>
      if b = 0 then (if a = 0 then nan else if 0 < a then inf else ninf)
      else fin (a / b)

/-- IEEE `>=` comparison: any comparison with NaN is `false`. -/
def fge : Flt → Flt → Bool
  | nan, _ => false
  | _, nan => false
  | inf, _ => true
  | ninf, ninf => true
  | ninf, _ => false
  | fin _, inf => false
  | fin _, ninf => true
  | fin a, fin b => b ≤ a

/-- IEEE `<=` comparison: any comparison with NaN is `false`. -/
def fle : Flt → Flt → Bool
  | nan, _ => false
  | _, nan => false
  | ninf, _ => true
  | inf, inf => true
  | inf, _ => false
  | fin _, ninf => false
  | fin _, inf => true
  | fin a, fin b => a ≤ b

/-- Total Boolean order used for the ascending sort inside the quantile
computation (NaN entries are removed before sorting, as pandas does; their
position in this order is therefore irrelevant, but the order is total). -/
def sortLE : Flt → Flt → Bool
  | ninf, _ => true
  | _, ninf => false
  | fin a, fin b => a ≤ b
  | fin _, _ => true
  | inf, nan => true
  | inf, inf => true
  | inf, fin _ => false
  | nan, nan => true
  | nan, _ => false

/-- Insert into an ascending list (structural insertion sort step). -/
def insertAsc (x : Flt) : List Flt → List Flt
  | [] => [x]
  | y :: ys => if sortLE x y then x :: y :: ys else y :: insertAsc x ys

/-- Ascending sort of the density column (insertion sort; the quantile
only depends on the sorted sequence of values). -/
def sortAsc (xs : List Flt) : List Flt := xs.foldr insertAsc []

/-- `Series.quantile(q)` with the default linear interpolation, as pandas
computes it: drop NaN entries, sort ascending, take the virtual index
`h = (n-1)*q`, and linearly interpolate between the neighbouring order
statistics; the quantile of an empty column is NaN.  When `h` is integral
the value is the order statistic itself (no interpolation step). -/
def quantile (q : ℚ) (xs : List Flt) : Flt :=
  let v := sortAsc (xs.filter (fun x => !x.isNan))
  let n := v.length
  if n = 0 then nan
  else
    let hidx : ℚ := ((n : ℚ) - 1) * q
    let i : ℕ := hidx.floor.toNat
    let frac : ℚ := hidx - (i : ℚ)
    let lo := v.getD i nan
    if frac = 0 then lo
    else add lo (mul (fin frac) (sub (v.getD (i + 1) nan) lo))

end Flt

/-- Python `str.strip()` (pandas `.str.strip()` with no argument): remove
leading and trailing whitespace characters.  Embedded directly over the
character list so the function evaluates inside the kernel. -/
def stripWs (s : String) : String :=
  String.mk
    (((s.data.dropWhile Char.isWhitespace).reverse.dropWhile
        Char.isWhitespace).reverse)

/-- A raw cell of the required numeric CSV column, before
`pd.to_numeric(..., errors='coerce')`: a numeric value, a non-numeric
string, or a missing entry.  (The actual string parsing happens inside
pandas, outside this repository; the claims only distinguish these three
cases.) -/
inductive Cell where
  | num (q : ℚ) : Cell
  | nonNumeric : Cell
  | missing : Cell
deriving DecidableEq, Repr

/-- `pd.to_numeric(..., errors='coerce')` on one cell: numeric cells keep
their value, non-numeric and missing cells become NaN. -/
def toNumericCoerce : Cell → Flt
  | Cell.num q => Flt.fin q
  | Cell.nonNumeric => Flt.nan
  | Cell.missing => Flt.nan

/-- A coordinate reference system as the script sees one: an EPSG code
together with its registry classification.  `projected`/`unitMetre` record
whether the CRS is a projected (as opposed to geographic
longitude/latitude) CRS and whether its axis unit is the metre;
`distancePreserving` records whether equal planar distances in the CRS
correspond to equal ground distances (an equidistant projection). -/
structure CRS where
  epsg : ℕ
  projected : Bool
  unitMetre : Bool
  distancePreserving : Bool
deriving DecidableEq, Repr

/-- EPSG:3857, WGS 84 / Pseudo-Mercator ("Web Mercator"), the CRS the
script projects into for buffering (`to_crs(epsg=3857)`).  Per the EPSG
registry it is a projected CRS with metre units; it is conformal, not
equidistant: its scale factor grows as `1 / cos(latitude)`, so Web
Mercator "metres" do not preserve ground distance (at Australian
latitudes a 10 000-unit buffer spans roughly 8 000–8 800 ground metres). -/
def epsg3857 : CRS := ⟨3857, true, true, false⟩

/-- EPSG:4326, WGS 84: a geographic longitude/latitude CRS (degrees),
used by the script for the folium export (`to_crs(epsg=4326)`). -/
def epsg4326 : CRS := ⟨4326, false, false, false⟩

/-- EPSG:7844, GDA2020: the geographic CRS of the source shapefile
`SA2_2021_AUST_GDA2020.shp`. -/
def epsg7844 : CRS := ⟨7844, false, false, false⟩

/-- The geometric primitives the script calls in GeoPandas/Shapely; they
are library code, not code of this repository, so the pipeline is
parametrized over them and every theorem holds for an arbitrary
instantiation.  `G` is the type of (possibly missing) geometries. -/
structure GeoOps (G : Type) where
  /-- `GeoDataFrame.to_crs`: reproject one geometry into the target CRS. -/
  reproject : CRS → G → G
  /-- `geometry.buffer(d)`: buffer outward by distance `d` (in CRS units). -/
  buffer : ℚ → G → G
  /-- `GeoSeries.unary_union`: union of a list of geometries. -/
  unionAll : List G → G
  /-- `geometry.intersects`: share at least one point, boundary included. -/
  intersects : G → G → Bool
  /-- `geometry.isna()`: missing/null geometry test. -/
  isna : G → Bool

/-- A row of the shapefile table `gdf` as loaded: SA2 code, area in square
kilometres, geometry. -/
structure ShpRow (G : Type) where
  sa2_code21 : String
  areasqkm21 : Flt
  geometry : G
deriving DecidableEq, Repr

/-- A row of the housing CSV as loaded: SA2 code and the raw
`Total_Total` cell. -/
structure CsvRow where
  sa2_code_2021 : String
  total_total : Cell
deriving DecidableEq, Repr

/-- A housing row after key normalization and numeric coercion
(lines 17 and 20 of the script). -/
structure HRow where
  sa2_code_2021 : String
  total_total : Flt
deriving DecidableEq, Repr

/-- Lines 17 and 20: normalize one CSV row — the key is coerced to string
and stripped of surrounding whitespace, the count coerced to numeric. -/
def coerceCsvRow (r : CsvRow) : HRow :=
  ⟨stripWs r.sa2_code_2021, toNumericCoerce r.total_total⟩

/-- Lines 17, 20–21: the cleaned `housing` table — coerce every row, then
`dropna(subset=['Total_Total'])` removes the rows whose coercion produced
NaN.  No error is raised: this is a total function. -/
def housingClean (csv : List CsvRow) : List HRow :=
  (csv.map coerceCsvRow).filter (fun r => !r.total_total.isNan)

/-- Line 16: normalize the shapefile key column
(`astype(str).str.strip()`). -/
def normShp {G : Type} (shp : List (ShpRow G)) : List (ShpRow G) :=
  shp.map (fun r => { r with sa2_code21 := stripWs r.sa2_code21 })

/-- A joined row before the density column is added (result of the merge
on line 24). -/
structure MRow (G : Type) where
  sa2_code21 : String
  areasqkm21 : Flt
  geometry : G
  sa2_code_2021 : String
  total_total : Flt
deriving DecidableEq, Repr

/-- Lines 24–29: `gdf.merge(housing[['SA2_CODE_2021','Total_Total']],
left_on='SA2_CODE21', right_on='SA2_CODE_2021', how='inner')`.  Pandas
inner-merge semantics: for each left row in order, one output row per
matching right row in order. -/
def mergeInner {G : Type} (left : List (ShpRow G)) (right : List HRow) :
    List (MRow G) :=
  left.flatMap (fun g =>
    (right.filter (fun h => h.sa2_code_2021 = g.sa2_code21)).map (fun h =>
      ⟨g.sa2_code21, g.areasqkm21, g.geometry, h.sa2_code_2021, h.total_total⟩))

/-- A joined row with the derived density column (line 32). -/
structure JRow (G : Type) where
  sa2_code21 : String
  areasqkm21 : Flt
  geometry : G
  sa2_code_2021 : String
  total_total : Flt
  housing_density : Flt
deriving DecidableEq, Repr

/-- Line 32: `gdf['housing_density'] = gdf['Total_Total'] /
gdf['AREASQKM21']` — elementwise IEEE division. -/
def withDensity {G : Type} (rows : List (MRow G)) : List (JRow G) :=
  rows.map (fun r =>
    ⟨r.sa2_code21, r.areasqkm21, r.geometry, r.sa2_code_2021, r.total_total,
      Flt.div r.total_total r.areasqkm21⟩)

/-- The joined table with density, i.e. the value of the script variable
`gdf` after line 32 (the script reassigns `gdf` at the merge). -/
def gdfJoined {G : Type} (shp : List (ShpRow G)) (csv : List CsvRow) :
    List (JRow G) :=
  withDensity (mergeInner (normShp shp) (housingClean csv))

/-- Line 36: `high_density_threshold =
gdf['housing_density'].quantile(0.70)` — pandas skips NaN entries and
linearly interpolates. -/
def high_density_threshold {G : Type} (shp : List (ShpRow G))
    (csv : List CsvRow) : Flt :=
  Flt.quantile (7 / 10) ((gdfJoined shp csv).map (fun r => r.housing_density))

/-- Line 37: `developed = gdf[gdf['housing_density'] >=
high_density_threshold]` — the high-density partition. -/
def developed {G : Type} (shp : List (ShpRow G)) (csv : List CsvRow) :
    List (JRow G) :=
  (gdfJoined shp csv).filter
    (fun r => Flt.fge r.housing_density (high_density_threshold shp csv))

/-- Modelled from the spec: the "other" partition, i.e. the remainder of
the joined collection after removing the high-density rows.  The script
materializes only `developed` (line 37); the spec's classifier contract
describes the complementary selection `gdf[~(gdf['housing_density'] >=
high_density_threshold)]`, which is what this definition is. -/
def othersPartition {G : Type} (shp : List (ShpRow G)) (csv : List CsvRow) :
    List (JRow G) :=
  (gdfJoined shp csv).filter
    (fun r => !Flt.fge r.housing_density (high_density_threshold shp csv))

/-- A GeoDataFrame at a given stage: its rows plus the CRS its geometry
column is currently expressed in (`GeoDataFrame.crs`). -/
structure Frame (G : Type) where
  rows : List (JRow G)
  crs : CRS
deriving DecidableEq, Repr

/-- `GeoDataFrame.to_crs`: reproject every geometry and retag the frame
with the target CRS. -/
def frameToCrs {G : Type} (ops : GeoOps G) (c : CRS) (f : Frame G) : Frame G :=
  ⟨f.rows.map (fun r => { r with geometry := ops.reproject c r.geometry }), c⟩

/-- The joined table as a frame in the shapefile's source CRS. -/
def gdfFrame {G : Type} (srcCrs : CRS) (shp : List (ShpRow G))
    (csv : List CsvRow) : Frame G :=
  ⟨gdfJoined shp csv, srcCrs⟩

/-- Line 42: `gdf_m = gdf.to_crs(epsg=3857)`. -/
def gdf_m {G : Type} (ops : GeoOps G) (srcCrs : CRS) (shp : List (ShpRow G))
    (csv : List CsvRow) : Frame G :=
  frameToCrs ops epsg3857 (gdfFrame srcCrs shp csv)

/-- Line 43: `developed_m = developed.to_crs(epsg=3857)`. -/
def developed_m {G : Type} (ops : GeoOps G) (srcCrs : CRS)
    (shp : List (ShpRow G)) (csv : List CsvRow) : Frame G :=
  frameToCrs ops epsg3857 ⟨developed shp csv, srcCrs⟩

/-- Line 46: `buffer_distance = 10000` (metres, i.e. EPSG:3857 units). -/
def buffer_distance : ℚ := 10000

/-- Lines 47–48: `buffered = developed_m.copy();
buffered['geometry'] = buffered.geometry.buffer(buffer_distance)`. -/
def buffered {G : Type} (ops : GeoOps G) (srcCrs : CRS)
    (shp : List (ShpRow G)) (csv : List CsvRow) : Frame G :=
  ⟨(developed_m ops srcCrs shp csv).rows.map
      (fun r => { r with geometry := ops.buffer buffer_distance r.geometry }),
    (developed_m ops srcCrs shp csv).crs⟩

/-- `buffered.unary_union` (line 51): the single multipolygon unioning all
buffers around the high-density regions. -/
def bufferUnion {G : Type} (ops : GeoOps G) (srcCrs : CRS)
    (shp : List (ShpRow G)) (csv : List CsvRow) : G :=
  ops.unionAll ((buffered ops srcCrs shp csv).rows.map (fun r => r.geometry))

/-- Line 51: `hot_zones_m = gdf_m[gdf_m.geometry.intersects(buffered.unary_union)]`
— the raw candidate set. -/
def hotZonesRaw {G : Type} (ops : GeoOps G) (srcCrs : CRS)
    (shp : List (ShpRow G)) (csv : List CsvRow) : Frame G :=
  ⟨(gdf_m ops srcCrs shp csv).rows.filter
      (fun r => ops.intersects r.geometry (bufferUnion ops srcCrs shp csv)),
    (gdf_m ops srcCrs shp csv).crs⟩

/-- Line 52: `hot_zones_m = hot_zones_m[~hot_zones_m['SA2_CODE21'].isin(developed['SA2_CODE21'])]`
— exclude, by identifier, the regions already in the (unprojected)
high-density partition. -/
def hotZonesExcl {G : Type} (ops : GeoOps G) (srcCrs : CRS)
    (shp : List (ShpRow G)) (csv : List CsvRow) : Frame G :=
  ⟨(hotZonesRaw ops srcCrs shp csv).rows.filter
      (fun r =>
        !decide (r.sa2_code21 ∈ (developed shp csv).map (fun d => d.sa2_code21))),
    (hotZonesRaw ops srcCrs shp csv).crs⟩

/-- Line 55: `min_density = 10`. -/
def min_density : ℚ := 10

/-- Line 56: `max_density = 200`. -/
def max_density : ℚ := 200

/-- Lines 57–60: the growth-ready result — keep only candidates whose
density lies in the closed band `[min_density, max_density]`.  This is the
final value of the script variable `hot_zones_m`. -/
def hot_zones_m {G : Type} (ops : GeoOps G) (srcCrs : CRS)
    (shp : List (ShpRow G)) (csv : List CsvRow) : Frame G :=
  ⟨(hotZonesExcl ops srcCrs shp csv).rows.filter
      (fun r =>
        Flt.fge r.housing_density (Flt.fin min_density) &&
        Flt.fle r.housing_density (Flt.fin max_density)),
    (hotZonesExcl ops srcCrs shp csv).crs⟩

/-- Lines 80 and 85: `gdf_f = gdf_m.to_crs(epsg=4326)` followed by
`gdf_f = gdf_f[~gdf_f['geometry'].isna()]` (drop missing geometries
before the folium export). -/
def gdf_f {G : Type} (ops : GeoOps G) (srcCrs : CRS) (shp : List (ShpRow G))
    (csv : List CsvRow) : Frame G :=
  ⟨(frameToCrs ops epsg4326 (gdf_m ops srcCrs shp csv)).rows.filter
      (fun r => !ops.isna r.geometry),
    (frameToCrs ops epsg4326 (gdf_m ops srcCrs shp csv)).crs⟩

/-- Lines 81 and 86: the high-density partition reprojected for export. -/
def developed_f {G : Type} (ops : GeoOps G) (srcCrs : CRS)
    (shp : List (ShpRow G)) (csv : List CsvRow) : Frame G :=
  ⟨(frameToCrs ops epsg4326 (developed_m ops srcCrs shp csv)).rows.filter
      (fun r => !ops.isna r.geometry),
    (frameToCrs ops epsg4326 (developed_m ops srcCrs shp csv)).crs⟩

/-- Lines 82 and 87: the growth-ready partition reprojected for export. -/
def hot_zones_f {G : Type} (ops : GeoOps G) (srcCrs : CRS)
    (shp : List (ShpRow G)) (csv : List CsvRow) : Frame G :=
  ⟨(frameToCrs ops epsg4326 (hot_zones_m ops srcCrs shp csv)).rows.filter
      (fun r => !ops.isna r.geometry),
    (frameToCrs ops epsg4326 (hot_zones_m ops srcCrs shp csv)).crs⟩

/-- A trivial instantiation of the geometric primitives, used to evaluate
the pipeline on concrete witness data (geometries carry no information;
every geometry intersects every other and none is missing). -/
def trivOps : GeoOps Unit :=
  ⟨fun _ _ => (), fun _ _ => (), fun _ => (), fun _ _ => true, fun _ => false⟩

unseal Rat.add Rat.mul Rat.sub Rat.inv

/-- Concrete boundary table used to evaluate the theorems on data:
two unit-area regions. -/
def shpA : List (ShpRow Unit) :=
  [⟨"A", Flt.fin 1, ()⟩, ⟨"B", Flt.fin 1, ()⟩]

/-- Concrete attribute table matching `shpA`, plus one non-numeric row
("C") that the loader must drop. -/
def csvA : List CsvRow :=
  [⟨"A", Cell.num 500⟩, ⟨"B", Cell.num 50⟩, ⟨"C", Cell.nonNumeric⟩]

/-- Concrete boundary table with ten unit-area regions and one zero-area
region ("11"). -/
def shpZ : List (ShpRow Unit) :=
  [⟨"1", Flt.fin 1, ()⟩, ⟨"2", Flt.fin 1, ()⟩, ⟨"3", Flt.fin 1, ()⟩,
   ⟨"4", Flt.fin 1, ()⟩, ⟨"5", Flt.fin 1, ()⟩, ⟨"6", Flt.fin 1, ()⟩,
   ⟨"7", Flt.fin 1, ()⟩, ⟨"8", Flt.fin 1, ()⟩, ⟨"9", Flt.fin 1, ()⟩,
   ⟨"10", Flt.fin 1, ()⟩, ⟨"11", Flt.fin 0, ()⟩]

/-- Concrete attribute table matching `shpZ`: counts 1..10 for the
unit-area regions and a positive count 5 for the zero-area region. -/
def csvZ : List CsvRow :=
  [⟨"1", Cell.num 1⟩, ⟨"2", Cell.num 2⟩, ⟨"3", Cell.num 3⟩,
   ⟨"4", Cell.num 4⟩, ⟨"5", Cell.num 5⟩, ⟨"6", Cell.num 6⟩,
   ⟨"7", Cell.num 7⟩, ⟨"8", Cell.num 8⟩, ⟨"9", Cell.num 9⟩,
   ⟨"10", Cell.num 10⟩, ⟨"11", Cell.num 5⟩]

/-- Concrete boundary table with one missing (NaN) area ("X"), so that
the joined region "X" has an undefined (NaN) density. -/
def shpN : List (ShpRow Unit) :=
  [⟨"X", Flt.nan, ()⟩, ⟨"Y", Flt.fin 1, ()⟩, ⟨"Z", Flt.fin 1, ()⟩]

/-- Concrete attribute table matching `shpN`. -/
def csvN : List CsvRow :=
  [⟨"X", Cell.num 5⟩, ⟨"Y", Cell.num 100⟩, ⟨"Z", Cell.num 50⟩]

/-- NaN is `>=` nothing. -/
theorem Flt.fge_nan_left (b : Flt) : Flt.fge Flt.nan b = false := by
  cases b <;> rfl

/-- NaN is `<=` nothing. -/
theorem Flt.fle_nan_left (b : Flt) : Flt.fle Flt.nan b = false := by
  cases b <;> rfl

/-- A value inside a finite closed band `[lo, hi]` under the IEEE
comparisons is itself finite and lies in the band. -/
theorem Flt.band_finite {d : Flt} {lo hi : ℚ}
    (h1 : Flt.fge d (Flt.fin lo) = true) (h2 : Flt.fle d (Flt.fin hi) = true) :
    ∃ q : ℚ, d = Flt.fin q ∧ lo ≤ q ∧ q ≤ hi := by
  cases d with
  | nan => simp [Flt.fge] at h1
  | inf => simp [Flt.fle] at h2
  | ninf => simp [Flt.fge] at h1
  | fin q =>
      refine ⟨q, rfl, ?_, ?_⟩
      · simpa [Flt.fge] using h1
      · simpa [Flt.fle] using h2

/-- Membership in the growth-ready result, unfolded: a row is in
`hot_zones_m` exactly when it is a row of the projected joined table,
its geometry intersects the unioned buffer, its SA2 code is not among the
high-density codes, and its density passes the closed band filter. -/
theorem mem_hot_zones_m_iff {G : Type} (ops : GeoOps G) (srcCrs : CRS)
    (shp : List (ShpRow G)) (csv : List CsvRow) (r : JRow G) :
    r ∈ (hot_zones_m ops srcCrs shp csv).rows ↔
      r ∈ (gdf_m ops srcCrs shp csv).rows ∧
      ops.intersects r.geometry (bufferUnion ops srcCrs shp csv) = true ∧
      ¬ r.sa2_code21 ∈ (developed shp csv).map (fun d => d.sa2_code21) ∧
      Flt.fge r.housing_density (Flt.fin min_density) = true ∧
      Flt.fle r.housing_density (Flt.fin max_density) = true := by
  simp only [hot_zones_m, hotZonesExcl, hotZonesRaw, List.mem_filter,
    Bool.and_eq_true, Bool.not_eq_true', decide_eq_false_iff_not]
  tauto

/-- Splitting a list by a Boolean predicate preserves the total length. -/
theorem filter_length_partition {α : Type} (p : α → Bool) (l : List α) :
    (l.filter p).length + (l.filter (fun a => !p a)).length = l.length := by
  induction l with
  | nil => rfl
  | cons a t ih => cases hpa : p a <;> simp [List.filter_cons, hpa] <;> omega

/-- Every row of the joined table carries the density `count / area`. -/
theorem density_of_mem_gdfJoined {G : Type} {shp : List (ShpRow G)}
    {csv : List CsvRow} {r : JRow G} (h : r ∈ gdfJoined shp csv) :
    r.housing_density = Flt.div r.total_total r.areasqkm21 := by
  simp only [gdfJoined, withDensity, List.mem_map] at h
  obtain ⟨m, _, rfl⟩ := h
  rfl

/-- Claim C1: every region in the growth-ready (hot-zone) result has
density within the closed interval `[min_density, max_density]`
(defaults 10 and 200, both bounds inclusive), and its geometry intersects
(shares at least one point with, boundary-touching included) the union of
the buffers computed around the high-density regions. -/
theorem C1_growth_ready_band_and_buffer_intersection {G : Type}
    (ops : GeoOps G) (srcCrs : CRS) (shp : List (ShpRow G))
    (csv : List CsvRow) (r : JRow G)
    (h : r ∈ (hot_zones_m ops srcCrs shp csv).rows) :
    (∃ q : ℚ, r.housing_density = Flt.fin q ∧
      min_density ≤ q ∧ q ≤ max_density) ∧
    ops.intersects r.geometry (bufferUnion ops srcCrs shp csv) = true := by
  rw [mem_hot_zones_m_iff] at h
  exact ⟨Flt.band_finite h.2.2.2.1 h.2.2.2.2, h.2.1⟩

/-- Witness for C1: on the concrete tables `shpA`/`csvA` (densities 500
and 50, threshold 365) the region "B" is growth-ready, and the theorem
yields its band membership and buffer intersection. -/
theorem C1_witness :
    (⟨"B", Flt.fin 1, (), "B", Flt.fin 50, Flt.fin 50⟩ : JRow Unit) ∈
        (hot_zones_m trivOps epsg7844 shpA csvA).rows ∧
      ((∃ q : ℚ, (Flt.fin 50 : Flt) = Flt.fin q ∧
          min_density ≤ q ∧ q ≤ max_density) ∧
        trivOps.intersects () (bufferUnion trivOps epsg7844 shpA csvA) = true) :=
  ⟨by decide,
    C1_growth_ready_band_and_buffer_intersection trivOps epsg7844 shpA csvA
      ⟨"B", Flt.fin 1, (), "B", Flt.fin 50, Flt.fin 50⟩ (by decide)⟩

/-- Claim C2: the classifier's threshold is the 0.70 quantile of the
density column under standard linear-interpolation quantile semantics,
and a region is high-density exactly when its density is `>=` that
threshold (ties included); in particular the 0.70 quantile of
`[1, 2, ..., 100]` is `70.3`. -/
theorem C2_threshold_linear_quantile_and_ge_ties {G : Type}
    (shp : List (ShpRow G)) (csv : List CsvRow) :
    Flt.quantile (7 / 10)
        ((List.range 100).map (fun i => Flt.fin ((i : ℚ) + 1))) =
      Flt.fin (703 / 10) ∧
    high_density_threshold shp csv =
      Flt.quantile (7 / 10)
        ((gdfJoined shp csv).map (fun r => r.housing_density)) ∧
    ∀ r : JRow G, r ∈ developed shp csv ↔
      r ∈ gdfJoined shp csv ∧
        Flt.fge r.housing_density (high_density_threshold shp csv) = true := by
  refine ⟨by decide, rfl, fun r => ?_⟩
  simp [developed, List.mem_filter]

/-- Witness for C2: the theorem applied to the concrete tables
`shpA`/`csvA`, instantiated at the joined row "A" (density 500,
threshold 365). -/
theorem C2_witness :
    Flt.quantile (7 / 10)
        ((List.range 100).map (fun i => Flt.fin ((i : ℚ) + 1))) =
      Flt.fin (703 / 10) ∧
    ((⟨"A", Flt.fin 1, (), "A", Flt.fin 500, Flt.fin 500⟩ : JRow Unit) ∈
        developed shpA csvA ↔
      (⟨"A", Flt.fin 1, (), "A", Flt.fin 500, Flt.fin 500⟩ : JRow Unit) ∈
          gdfJoined shpA csvA ∧
        Flt.fge (Flt.fin 500) (high_density_threshold shpA csvA) = true) :=
  ⟨(C2_threshold_linear_quantile_and_ge_ties shpA csvA).1,
    (C2_threshold_linear_quantile_and_ge_ties shpA csvA).2.2
      ⟨"A", Flt.fin 1, (), "A", Flt.fin 500, Flt.fin 500⟩⟩

/-- Claim C3: for every region retained by the join, the derived density
equals its count divided by its area (exactly; rationals realize the
floating-point tolerance exactly). -/
theorem C3_density_eq_count_div_area {G : Type} (shp : List (ShpRow G))
    (csv : List CsvRow) (r : JRow G) (h : r ∈ gdfJoined shp csv) :
    r.housing_density = Flt.div r.total_total r.areasqkm21 :=
  density_of_mem_gdfJoined h

/-- Witness for C3: the joined row "B" of the concrete tables has density
`50 / 1 = 50`. -/
theorem C3_witness :
    (⟨"B", Flt.fin 1, (), "B", Flt.fin 50, Flt.fin 50⟩ : JRow Unit) ∈
        gdfJoined shpA csvA ∧
      (Flt.fin 50 : Flt) = Flt.div (Flt.fin 50) (Flt.fin 1) :=
  ⟨by decide,
    C3_density_eq_count_div_area shpA csvA
      ⟨"B", Flt.fin 1, (), "B", Flt.fin 50, Flt.fin 50⟩ (by decide)⟩

/-- Claim C4: the growth-ready partition never contains a region whose
identifier is present in the high-density partition — exclusion is by
identifier. -/
theorem C4_growth_ready_ids_disjoint_from_high_density {G : Type}
    (ops : GeoOps G) (srcCrs : CRS) (shp : List (ShpRow G))
    (csv : List CsvRow) (c : String)
    (h : c ∈ (hot_zones_m ops srcCrs shp csv).rows.map
        (fun r => r.sa2_code21)) :
    ¬ c ∈ (developed shp csv).map (fun d => d.sa2_code21) := by
  simp only [List.mem_map] at h
  obtain ⟨r, hr, rfl⟩ := h
  exact ((mem_hot_zones_m_iff ops srcCrs shp csv r).mp hr).2.2.1

/-- Witness for C4: on the concrete tables, "B" is a growth-ready
identifier and is not a high-density identifier. -/
theorem C4_witness :
    "B" ∈ (hot_zones_m trivOps epsg7844 shpA csvA).rows.map
        (fun r => r.sa2_code21) ∧
      ¬ "B" ∈ (developed shpA csvA).map (fun d => d.sa2_code21) :=
  ⟨by decide,
    C4_growth_ready_ids_disjoint_from_high_density trivOps epsg7844 shpA csvA
      "B" (by decide)⟩

/-- Claim C5: the high-density partition and the "other" partition (the
remainder) are disjoint and their union is the full joined collection:
every joined region belongs to exactly one of the two, each partition
being a sublist of the joined table (rows kept whole, with all attributes
and geometry). -/
theorem C5_high_density_other_partition {G : Type} (shp : List (ShpRow G))
    (csv : List CsvRow) :
    ((developed shp csv).length + (othersPartition shp csv).length =
      (gdfJoined shp csv).length) ∧
    (∀ r : JRow G, r ∈ gdfJoined shp csv ↔
      r ∈ developed shp csv ∨ r ∈ othersPartition shp csv) ∧
    ∀ r : JRow G, ¬ (r ∈ developed shp csv ∧ r ∈ othersPartition shp csv) := by
  refine ⟨?_, fun r => ?_, fun r => ?_⟩
  · exact filter_length_partition
      (fun r => Flt.fge r.housing_density (high_density_threshold shp csv))
      (gdfJoined shp csv)
  · constructor
    · intro hmem
      by_cases hp :
          Flt.fge r.housing_density (high_density_threshold shp csv) = true
      · exact Or.inl (List.mem_filter.mpr ⟨hmem, hp⟩)
      · exact Or.inr (List.mem_filter.mpr ⟨hmem, by simp [hp]⟩)
    · rintro (hmem | hmem) <;> exact (List.mem_filter.mp hmem).1
  · rintro ⟨h1, h2⟩
    have hp := (List.mem_filter.mp h1).2
    have hq := (List.mem_filter.mp h2).2
    simp [hp] at hq

/-- Witness for C5: the theorem applied to the concrete tables `shpA`/
`csvA` (2 joined rows: 1 high-density + 1 other), instantiated at the
joined row "A". -/
theorem C5_witness :
    ((developed shpA csvA).length + (othersPartition shpA csvA).length =
      (gdfJoined shpA csvA).length) ∧
    ((⟨"A", Flt.fin 1, (), "A", Flt.fin 500, Flt.fin 500⟩ : JRow Unit) ∈
        gdfJoined shpA csvA ↔
      (⟨"A", Flt.fin 1, (), "A", Flt.fin 500, Flt.fin 500⟩ : JRow Unit) ∈
          developed shpA csvA ∨
        (⟨"A", Flt.fin 1, (), "A", Flt.fin 500, Flt.fin 500⟩ : JRow Unit) ∈
          othersPartition shpA csvA) ∧
    ¬ ((⟨"A", Flt.fin 1, (), "A", Flt.fin 500, Flt.fin 500⟩ : JRow Unit) ∈
          developed shpA csvA ∧
        (⟨"A", Flt.fin 1, (), "A", Flt.fin 500, Flt.fin 500⟩ : JRow Unit) ∈
          othersPartition shpA csvA) :=
  ⟨(C5_high_density_other_partition shpA csvA).1,
    (C5_high_density_other_partition shpA csvA).2.1
      ⟨"A", Flt.fin 1, (), "A", Flt.fin 500, Flt.fin 500⟩,
    (C5_high_density_other_partition shpA csvA).2.2
      ⟨"A", Flt.fin 1, (), "A", Flt.fin 500, Flt.fin 500⟩⟩

/-- Claim C6: the merge has inner-join semantics on the normalized key —
a key is present in the joined output exactly when it appears in both the
(normalized) geometry table and the (normalized, cleaned) attribute
table; a region present in only one source is absent. -/
theorem C6_inner_join_key_semantics {G : Type} (shp : List (ShpRow G))
    (csv : List CsvRow) (k : String) :
    (k ∈ (normShp shp).map (fun g => g.sa2_code21) ∧
      k ∈ (housingClean csv).map (fun h => h.sa2_code_2021)) ↔
    k ∈ (gdfJoined shp csv).map (fun r => r.sa2_code21) := by
  constructor
  · rintro ⟨hL, hR⟩
    simp only [List.mem_map] at hL hR ⊢
    obtain ⟨g, hg, hgk⟩ := hL
    obtain ⟨hrow, hh, hhk⟩ := hR
    refine ⟨⟨g.sa2_code21, g.areasqkm21, g.geometry, hrow.sa2_code_2021,
      hrow.total_total, Flt.div hrow.total_total g.areasqkm21⟩, ?_, hgk⟩
    simp only [gdfJoined, withDensity, mergeInner, List.mem_map,
      List.mem_flatMap, List.mem_filter]
    exact ⟨⟨g.sa2_code21, g.areasqkm21, g.geometry, hrow.sa2_code_2021,
      hrow.total_total⟩,
      ⟨g, hg, ⟨hrow, ⟨hh, by simp [hhk, hgk]⟩, rfl⟩⟩, rfl⟩
  · intro hJ
    simp only [List.mem_map] at hJ ⊢
    obtain ⟨j, hj, hjk⟩ := hJ
    simp only [gdfJoined, withDensity, mergeInner, List.mem_map,
      List.mem_flatMap, List.mem_filter] at hj
    obtain ⟨m, ⟨g, hg, ⟨hrow, ⟨hh, hkey⟩, hm⟩⟩, hjm⟩ := hj
    subst hm
    subst hjm
    have hk : hrow.sa2_code_2021 = g.sa2_code21 := of_decide_eq_true hkey
    exact ⟨⟨g, hg, hjk⟩, ⟨hrow, hh, hk.trans hjk⟩⟩

/-- Witness for C6: on the concrete tables, "A" appears in both sources
and in the joined output (forward use of the equivalence at a key present
in both). -/
theorem C6_witness :
    ("A" ∈ (normShp shpA).map (fun g => g.sa2_code21) ∧
      "A" ∈ (housingClean csvA).map (fun h => h.sa2_code_2021)) ∧
    "A" ∈ (gdfJoined shpA csvA).map (fun r => r.sa2_code21) :=
  ⟨by decide, (C6_inner_join_key_semantics shpA csvA "A").mp (by decide)⟩

/-- Counterexample for C7: on `shpZ`/`csvZ` (ten unit-area regions with
counts 1..10 and one zero-area region "11" with positive count 5) the
threshold is the finite value 8, the zero-area region's density is `+inf`,
and "11" IS classified high-density — the zero-area region is not excluded
from the threshold comparison, and its unbounded density does qualify it
as high-density, contrary to the claim. -/
theorem C7_counterexample :
    high_density_threshold shpZ csvZ = Flt.fin 8 ∧
    (⟨"11", Flt.fin 0, (), "11", Flt.fin 5, Flt.inf⟩ : JRow Unit) ∈
      developed shpZ csvZ ∧
    "11" ∈ (developed shpZ csvZ).map (fun d => d.sa2_code21) := by
  refine ⟨by decide, by decide, by decide⟩

/-- Claim C7 (amended): a retained region with area exactly zero and
positive count does not crash the pipeline (every stage is a total
function); its density is `+inf`, which CAN qualify it as high-density
(`inf >= t` holds for every non-NaN threshold `t`); the band filter
nevertheless keeps every growth-ready density below `max_density`, so the
unbounded value never reaches the growth-ready result. -/
theorem C7_zero_area_inf_density_never_growth_ready {G : Type}
    (ops : GeoOps G) (srcCrs : CRS) (shp : List (ShpRow G))
    (csv : List CsvRow) (r : JRow G) (h : r ∈ gdfJoined shp csv) (q : ℚ)
    (hq : r.total_total = Flt.fin q) (hpos : 0 < q)
    (ha : r.areasqkm21 = Flt.fin 0) :
    r.housing_density = Flt.inf ∧
    ∀ s : JRow G, s ∈ (hot_zones_m ops srcCrs shp csv).rows →
      s.housing_density ≠ Flt.inf := by
  constructor
  · rw [density_of_mem_gdfJoined h, hq, ha]
    simp [Flt.div, hpos.ne', hpos]
  · intro s hs hinf
    have hband := ((mem_hot_zones_m_iff ops srcCrs shp csv s).mp hs).2.2.2.2
    rw [hinf] at hband
    simp [Flt.fle] at hband

/-- Witness for C7 (amended): the zero-area region "11" of `shpZ`/`csvZ`
has density `+inf` and no growth-ready row has infinite density. -/
theorem C7_witness :
    ((⟨"11", Flt.fin 0, (), "11", Flt.fin 5, Flt.inf⟩ : JRow Unit) ∈
        gdfJoined shpZ csvZ ∧ (0 : ℚ) < 5) ∧
    ((⟨"11", Flt.fin 0, (), "11", Flt.fin 5, Flt.inf⟩ :
        JRow Unit).housing_density = Flt.inf ∧
      ∀ s : JRow Unit, s ∈ (hot_zones_m trivOps epsg7844 shpZ csvZ).rows →
        s.housing_density ≠ Flt.inf) :=
  ⟨⟨by decide, by decide⟩,
    C7_zero_area_inf_density_never_growth_ready trivOps epsg7844 shpZ csvZ
      ⟨"11", Flt.fin 0, (), "11", Flt.fin 5, Flt.inf⟩ (by decide) 5 rfl
      (by decide) rfl⟩

/-- Counterexample for C8: at the concrete input `shpA`/`csvA` the frame
the script buffers in has CRS EPSG:3857 (Web Mercator), which is not a
distance-preserving CRS (it is conformal; its scale factor varies with
latitude), contradicting the claim that buffering happens in a
distance-preserving CRS. -/
theorem C8_counterexample :
    (buffered trivOps epsg7844 shpA csvA).crs = epsg3857 ∧
    epsg3857.distancePreserving = false := by
  exact ⟨rfl, rfl⟩

/-- Claim C8 (amended): buffering (by the default radial distance 10 000)
and the intersection test are performed with all regions and the
high-density subset reprojected into EPSG:3857 — a meters-based projected
CRS that is, however, not distance-preserving — and display/export is
performed in the geographic (longitude/latitude) CRS EPSG:4326. -/
theorem C8_buffer_in_3857_export_in_4326 {G : Type} (ops : GeoOps G)
    (srcCrs : CRS) (shp : List (ShpRow G)) (csv : List CsvRow) :
    (gdf_m ops srcCrs shp csv).crs = epsg3857 ∧
    (developed_m ops srcCrs shp csv).crs = epsg3857 ∧
    (buffered ops srcCrs shp csv).crs = epsg3857 ∧
    (buffered ops srcCrs shp csv).rows =
      (developed_m ops srcCrs shp csv).rows.map
        (fun r => { r with geometry := ops.buffer buffer_distance r.geometry }) ∧
    (hotZonesRaw ops srcCrs shp csv).crs = epsg3857 ∧
    (hot_zones_m ops srcCrs shp csv).crs = epsg3857 ∧
    epsg3857.projected = true ∧
    epsg3857.unitMetre = true ∧
    epsg3857.distancePreserving = false ∧
    (gdf_f ops srcCrs shp csv).crs = epsg4326 ∧
    (developed_f ops srcCrs shp csv).crs = epsg4326 ∧
    (hot_zones_f ops srcCrs shp csv).crs = epsg4326 ∧
    epsg4326.projected = false ∧
    buffer_distance = 10000 :=
  ⟨rfl, rfl, rfl, rfl, rfl, rfl, rfl, rfl, rfl, rfl, rfl, rfl, rfl, rfl⟩

/-- Claim C9: rows of the attribute table whose required numeric count
column is non-numeric or missing are dropped before the join, silently
(the loader and the whole pipeline are total functions, so no exception
can originate from such rows): a coerced row survives the cleaning
exactly when its cell was numeric, and every joined row carries a finite
numeric count. -/
theorem C9_nonnumeric_rows_dropped_before_join {G : Type}
    (shp : List (ShpRow G)) (csv : List CsvRow) :
    (∀ c : CsvRow, c ∈ csv →
      (coerceCsvRow c ∈ housingClean csv ↔
        ∃ q : ℚ, c.total_total = Cell.num q)) ∧
    ∀ j : JRow G, j ∈ gdfJoined shp csv →
      ∃ q : ℚ, j.total_total = Flt.fin q := by
  constructor
  · intro c hc
    constructor
    · intro hmem
      have hkeep := (List.mem_filter.mp hmem).2
      cases hcell : c.total_total with
      | num q => exact ⟨q, rfl⟩
      | nonNumeric =>
          rw [coerceCsvRow, hcell] at hkeep
          simp [toNumericCoerce, Flt.isNan] at hkeep
      | missing =>
          rw [coerceCsvRow, hcell] at hkeep
          simp [toNumericCoerce, Flt.isNan] at hkeep
    · rintro ⟨q, hq⟩
      refine List.mem_filter.mpr ⟨List.mem_map.mpr ⟨c, hc, rfl⟩, ?_⟩
      rw [coerceCsvRow, hq]
      rfl
  · intro j hj
    simp only [gdfJoined, withDensity, mergeInner, List.mem_map,
      List.mem_flatMap, List.mem_filter] at hj
    obtain ⟨m, ⟨g, hg, ⟨hrow, ⟨hh, hkey⟩, hm⟩⟩, hjm⟩ := hj
    subst hm
    subst hjm
    have hkeep := (List.mem_filter.mp hh).2
    obtain ⟨c, hc, hcr⟩ := List.mem_map.mp (List.mem_filter.mp hh).1
    cases hcell : c.total_total with
    | num q =>
        refine ⟨q, ?_⟩
        show hrow.total_total = Flt.fin q
        rw [← hcr, coerceCsvRow, hcell]
        rfl
    | nonNumeric =>
        rw [← hcr, coerceCsvRow, hcell] at hkeep
        simp [toNumericCoerce, Flt.isNan] at hkeep
    | missing =>
        rw [← hcr, coerceCsvRow, hcell] at hkeep
        simp [toNumericCoerce, Flt.isNan] at hkeep

/-- Witness for C9: the non-numeric row "C" of `csvA` does not survive the
cleaning, and every joined row of `shpA`/`csvA` carries a finite count. -/
theorem C9_witness :
    ((⟨"C", Cell.nonNumeric⟩ : CsvRow) ∈ csvA) ∧
    ((coerceCsvRow ⟨"C", Cell.nonNumeric⟩ ∈ housingClean csvA ↔
        ∃ q : ℚ, (⟨"C", Cell.nonNumeric⟩ : CsvRow).total_total = Cell.num q) ∧
      ∀ j : JRow Unit, j ∈ gdfJoined shpA csvA →
        ∃ q : ℚ, j.total_total = Flt.fin q) :=
  ⟨by decide,
    (C9_nonnumeric_rows_dropped_before_join shpA csvA).1
      ⟨"C", Cell.nonNumeric⟩ (by decide),
    (C9_nonnumeric_rows_dropped_before_join shpA csvA).2⟩

/-- Claim C10 (implicit): a joined region with undefined (NaN) density is
classified neither high-density nor growth-ready — every `>=`/`<=`
comparison on NaN is false — so such a region always falls into the
"other" partition. -/
theorem C10_nan_density_neither_high_density_nor_growth_ready {G : Type}
    (ops : GeoOps G) (srcCrs : CRS) (shp : List (ShpRow G))
    (csv : List CsvRow) (r : JRow G) (h : r ∈ gdfJoined shp csv)
    (hnan : r.housing_density = Flt.nan) :
    ¬ r ∈ developed shp csv ∧
    r ∈ othersPartition shp csv ∧
    ∀ s : JRow G, s ∈ (hot_zones_m ops srcCrs shp csv).rows →
      s.housing_density ≠ Flt.nan := by
  refine ⟨?_, ?_, ?_⟩
  · intro hmem
    have hp := (List.mem_filter.mp hmem).2
    rw [hnan, Flt.fge_nan_left] at hp
    exact Bool.noConfusion hp
  · refine List.mem_filter.mpr ⟨h, ?_⟩
    rw [hnan, Flt.fge_nan_left]
    rfl
  · intro s hs hsnan
    have hband := ((mem_hot_zones_m_iff ops srcCrs shp csv s).mp hs).2.2.2.1
    rw [hsnan, Flt.fge_nan_left] at hband
    exact Bool.noConfusion hband

/-- Witness for C10: on `shpN`/`csvN` the region "X" has a missing (NaN)
area, hence NaN density; it lands in the "other" partition and nowhere
else. -/
theorem C10_witness :
    ((⟨"X", Flt.nan, (), "X", Flt.fin 5, Flt.nan⟩ : JRow Unit) ∈
        gdfJoined shpN csvN) ∧
    (¬ (⟨"X", Flt.nan, (), "X", Flt.fin 5, Flt.nan⟩ : JRow Unit) ∈
        developed shpN csvN ∧
      (⟨"X", Flt.nan, (), "X", Flt.fin 5, Flt.nan⟩ : JRow Unit) ∈
        othersPartition shpN csvN ∧
      ∀ s : JRow Unit, s ∈ (hot_zones_m trivOps epsg7844 shpN csvN).rows →
        s.housing_density ≠ Flt.nan) :=
  ⟨by decide,
    C10_nan_density_neither_high_density_nor_growth_ready trivOps epsg7844
      shpN csvN ⟨"X", Flt.nan, (), "X", Flt.fin 5, Flt.nan⟩ (by decide) rfl⟩
